import Mathlib

/-!
Verification of the Vira Engine risk-analysis pipeline.

The development shallowly embeds the pipeline of `src/app/api.py`
(`analyze_asset`) and `src/app/main.py` (`get_asset_data`,
`run_llm_investigation`, `perform_asset_analysis`).  External effects
(file reads, the Gemini chat call, `json.loads`) are supplied through an
explicit environment record `Env`; raising an exception in the Python
source is modelled by the corresponding `Option`/`Except` error value.
Python strings are Lean `String`s; Python's `in` substring test is the
executable `strContains`.
-/

set_option autoImplicit false

/-- Substring test on character lists: `needle` occurs contiguously in
`hay`.  Mirrors Python's `needle in hay` for strings. -/
def listContains (hay needle : List Char) : Bool :=
  (List.range (hay.length + 1)).any fun i => needle.isPrefixOf (hay.drop i)

/-- Substring test on strings, the model of Python's `in` operator. -/
def strContains (hay needle : String) : Bool :=
  listContains hay.data needle.data

/-- JSON values as produced by Python's `json.loads`.  Numbers are
modelled as integers (no claim involves fractional numbers); an `obj`
is the attribute list of a Python dict, keys distinct. -/
inductive JsonVal where
  | null
  | bool (b : Bool)
  | num (n : Int)
  | str (s : String)
  | arr (xs : List JsonVal)
  | obj (fs : List (String × JsonVal))

/-- Python truthiness of a JSON value (`bool(v)`). -/
def JsonVal.truthy : JsonVal → Bool
  | .null => false
  | .bool b => b
  | .num n => n != 0
  | .str s => s != ""
  | .arr xs => !xs.isEmpty
  | .obj fs => !fs.isEmpty

/-- Python `v == k` for a string literal `k`: true only when `v` is the
same string. -/
def JsonVal.isStrEq (v : JsonVal) (k : String) : Bool :=
  match v with
  | .str s => s == k
  | _ => false

/-- Lookup of a key in the attribute list of a JSON object
(`d[k]` / `d.get(k)` on the modelled dict). -/
def lookupFields : List (String × JsonVal) → String → Option JsonVal
  | [], _ => none
  | (k', v) :: rest, k => if k' == k then some v else lookupFields rest k

/-- Python's `k in v` for a string `k`.  `some b` is the boolean result;
`none` models the `TypeError` raised when `v` supports no membership
test (numbers, booleans, `None`). -/
def pyContains (k : String) : JsonVal → Option Bool
  | .obj fs => some (fs.any fun p => p.1 == k)
  | .arr xs => some (xs.any fun x => x.isStrEq k)
  | .str s => some (strContains s k)
  | _ => none

/-- Python `str(v)` as interpolated into the f-strings of the source.
Only string values reach the interpolation sites exercised by the
claims; the rendering of containers is abbreviated. -/
def pyStr : JsonVal → String
  | .str s => s
  | .num n => toString n
  | .bool true => "True"
  | .bool false => "False"
  | .null => "None"
  | .arr _ => "[...]"
  | .obj _ => "\x7b...\x7d"

/-- Asset reference extracted by `get_asset_data` from the metadata
file.  The document paths are left implicit: each dereference of a path
is an `Env` field holding that read's outcome. -/
structure AssetData where
  registry_key : String
deriving DecidableEq

/-- One cell of the registry's `owner_name` column as `pd.read_csv`
delivers it: either a present string, or a missing cell read as
`float('nan')` — a value that is truthy in Python and is not a valid
left operand of the string membership test `in`. -/
inductive CsvCell where
  | str (s : String)
  | nan
deriving DecidableEq

/-- Python `str()` of an owner cell as interpolated into the evidence
f-strings (`str(float('nan'))` renders "nan"). -/
def pyStrCell : CsvCell → String
  | .str s => s
  | .nan => "nan"

/-- One row of the land-registry CSV as consumed by the pipeline
(`c_of_o_id`, `status`, `owner_name` columns).  The `status` cell is
kept as a plain string — the claims about it quantify over status
strings — while `owner_name` can also be a missing (NaN) cell. -/
structure RegistryRow where
  c_of_o_id : String
  status : String
  owner_name : CsvCell
deriving DecidableEq

/-- One alert of the news feed; `headline` and `summary` are optional
because the source accesses them with `alert.get(..., default)`. -/
structure NewsAlert where
  headline : Option String
  summary : Option String
deriving DecidableEq

/-- The external world of one request.  `none` / `.error` fields model
the corresponding Python operation raising an exception.  The registry
and news files are read both by `analyze_asset` and again inside
`run_llm_investigation`; a single field models both reads, reflecting
the spec's assumption that the sources do not change mid-request. -/
structure Env where
  /-- `API_KEY` is present, not the placeholder, and `genai.configure`
  succeeds. -/
  apiKeyOk : Bool
  /-- Result of `get_asset_data token_id`: `none` when the metadata file
  is absent, unreadable, or yields no attributes (falsy dict). -/
  asset : Option AssetData
  /-- Reading the deed document (`open(deed_path).read()`). -/
  deedRead : Option String
  /-- Reading the registry CSV (`pd.read_csv`); `.error e` carries the
  exception text interpolated into the evidence detail. -/
  registryRead : Except String (List RegistryRow)
  /-- Reading and JSON-decoding the news feed; `.error e` carries the
  exception text. -/
  newsRead : Except String (List NewsAlert)
  /-- The chat round-trip (`model.start_chat`, `send_message`,
  `response.text`): `none` when any of it raises. -/
  chatText : Option String
  /-- Behaviour of `json.loads` on the cleaned response text: `none`
  models a parse exception. -/
  parse : String → Option JsonVal

/-- Resolver of `src/app/main.py:get_asset_data`, as observed through
the environment. -/
def get_asset_data (env : Env) : Option AssetData :=
  env.asset

/-- Code-fence cleanup applied to the raw model response in
`src/app/main.py:run_llm_investigation` (`.strip()`, remove all
occurrences of the fence markers, `.strip()` again). -/
def stripFences (raw : String) : String :=
  ((raw.trim.replace "```json" "").replace "```" "").trim

/-- The per-alert predicate of the news comprehension for a string
owner (`owner_name and owner_name in alert.get('summary', '')`): the
empty string is falsy and short-circuits the membership test. -/
def newsMatches (owner : String) (a : NewsAlert) : Bool :=
  (owner != "") && strContains (a.summary.getD "") owner

/-- The news comprehension of `src/app/api.py` line 122 and
`src/app/main.py` line 92.  `none` models the `TypeError` raised when
the owner cell is NaN: NaN is truthy, so `nan in summary` runs — and
raises — on the first alert of any nonempty feed; over an empty feed
the comprehension never iterates and yields the empty selection. -/
def selectRelevant (owner : CsvCell) (alerts : List NewsAlert) : Option (List NewsAlert) :=
  match owner with
  | .nan => if alerts.isEmpty then some [] else none
  | .str s => some (alerts.filter (newsMatches s))

/-- The owner value bound in `src/app/main.py` line 91: the matched
row's owner cell, or the empty string when no row matches. -/
def ownerOf (rows : List RegistryRow) (key : String) : CsvCell :=
  match rows.find? (fun r => r.c_of_o_id == key) with
  | some row => row.owner_name
  | none => .str ""

/-- Placeholder for the interpreter text of the `TypeError` raised by
`nan in summary` (a float left operand of string membership); the
exact CPython message is not modelled, no claim inspects it. -/
def floatInTypeErrorText : String :=
  "requires string as left operand, not float"

/-- Embedding of `src/app/main.py:run_llm_investigation`.  Every
exception path of the source returns `None` — including the
`TypeError` raised at line 92 when the matched row's owner cell is NaN
and the feed is nonempty; a successful `json.loads` result is returned
unchanged. -/
def run_llm_investigation (env : Env) : Option JsonVal :=
  if !env.apiKeyOk then none
  else
    match get_asset_data env with
    | none => none
    | some ad =>
      match env.deedRead, env.registryRead, env.newsRead with
      | some _, .ok rows, .ok alerts =>
        match selectRelevant (ownerOf rows ad.registry_key) alerts with
        | none => none
        | some _ =>
          match env.chatText with
          | none => none
          | some raw => env.parse (stripFences raw)
      | _, _, _ => none

/-- One entry of `evidence_summary` (`step`, `result`, `details` keys of
the dicts appended in `src/app/api.py:analyze_asset`). -/
structure Evidence where
  step : String
  result : String
  detail : String
deriving DecidableEq

/-- State of the `final_report` dict of `analyze_asset`.  `risk_type`
and `risk_summary` are the two keys of the nested `risk_assessment`
dict; `details` is the key set only on the resolution-failure path. -/
structure FinalReport where
  token_id : String
  status : String
  risk_type : JsonVal
  risk_summary : String
  evidence_summary : List Evidence
  last_analyzed : String
  details : Option String

/-- Result of one call of `analyze_asset`: `httpError = some (c, d)`
when the endpoint raised `HTTPException(status_code := c, detail := d)`,
together with the state `final_report` had when control left the
function.  The mock-proof value attached to the successful response is
produced by the absent `zk_proof_simulator` module and is modelled
separately (see `generate_mock_zk_proof`). -/
structure AnalyzeOutcome where
  httpError : Option (Nat × String)
  report : FinalReport

/-- The initial `final_report` value of `analyze_asset`
(`src/app/api.py` lines 79-85). -/
def initialReport (token_id now : String) : FinalReport :=
  { token_id := token_id
    status := "Failed"
    risk_type := .str "Analysis Error"
    risk_summary := "Analysis could not be completed."
    evidence_summary := []
    last_analyzed := now
    details := none }

/-- Evidence record appended when the registry row is found
(`src/app/api.py` lines 104-108). -/
def registryFoundEvidence (key status : String) : Evidence :=
  { step := "Land Registry Verification"
    result := if status == "Verified" then "Success" else "Failure"
    detail := "Asset with C-of-O ID '" ++ key ++ "' found. Status is '" ++ status ++ "'." }

/-- Evidence record appended when the registry step raises
(`src/app/api.py` lines 112-116); `e` is the exception text. -/
def registryErrorEvidence (e : String) : Evidence :=
  { step := "Land Registry Verification"
    result := "Failure"
    detail := "Could not verify asset in land registry: " ++ e }

/-- Evidence record of the news scan (`src/app/api.py` lines 123-135):
`relevant` is the selected alert list. -/
def newsEvidence (owner : CsvCell) (relevant : List NewsAlert) : Evidence :=
  if relevant.isEmpty then
    { step := "Public News & Gazette Scan"
      result := "Success"
      detail := "Scanned public records. No adverse news found concerning owner '" ++ pyStrCell owner ++ "'." }
  else
    { step := "Public News & Gazette Scan"
      result := "Failure"
      detail := "Found " ++ toString relevant.length
        ++ " adverse news record(s) concerning owner '" ++ pyStrCell owner ++ "'. Headlines: "
        ++ String.intercalate ", " (relevant.map fun a => a.headline.getD "N/A") }

/-- Placeholder for the interpreter text of the `TypeError` raised by
`"potential_risk_type" in llm_result` on a non-container value; the
exact CPython message is not modelled, no claim inspects it. -/
def inTypeErrorText : String :=
  "argument of type is not iterable"

/-- Placeholder for the interpreter text of the `TypeError` raised by
indexing a non-dict value with a string key. -/
def indexTypeErrorText : String :=
  "indices must be integers"

/-- Step 3 of `analyze_asset` (`src/app/api.py` lines 144-165) plus the
function's return: classifies the `run_llm_investigation` result.  `r`
holds the report state after the news scan.  A `TypeError` raised while
testing or indexing the result escapes to the outer handler and becomes
a 500 response (lines 176-179). -/
def aiReviewStep (env : Env) (r : FinalReport) : AnalyzeOutcome :=
  match run_llm_investigation env with
  | none =>
    { httpError := none
      report :=
        { r with
          status := "Partial Success"
          risk_summary := "Analysis was inconclusive due to an AI model error."
          evidence_summary := r.evidence_summary ++
            [{ step := "Legal Document Review (AI)", result := "Failure",
               detail := "AI model returned an unexpected or empty result." }] } }
  | some v =>
    if v.truthy then
      match pyContains "potential_risk_type" v with
      | none =>
        { httpError := some (500, "An unexpected internal server error occurred: " ++ inTypeErrorText)
          report := r }
      | some false =>
        { httpError := none
          report :=
            { r with
              status := "Partial Success"
              risk_summary := "Analysis was inconclusive due to an AI model error."
              evidence_summary := r.evidence_summary ++
                [{ step := "Legal Document Review (AI)", result := "Failure",
                   detail := "AI model returned an unexpected or empty result." }] } }
      | some true =>
        match v with
        | .obj fs =>
          let riskV := (lookupFields fs "potential_risk_type").getD .null
          let isRiskFound := !(riskV.isStrEq "No Risk Found")
          { httpError := none
            report :=
              { r with
                status := "Success"
                risk_type := riskV
                risk_summary :=
                  if isRiskFound then
                    "Comprehensive analysis completed. AI model identified a risk of '"
                      ++ pyStr riskV ++ "'."
                  else
                    "Comprehensive analysis of all data sources found no indicators of title dispute, financial encumbrance, or government revocation."
                evidence_summary := r.evidence_summary ++
                  [{ step := "Legal Document Review (AI)",
                     result := if isRiskFound then "Failure" else "Success",
                     detail := "AI review of legal documents concluded: '" ++ pyStr riskV ++ "'." }] } }
        | _ =>
          { httpError := some (500, "An unexpected internal server error occurred: " ++ indexTypeErrorText)
            report := r }
    else
      { httpError := none
        report :=
          { r with
            status := "Partial Success"
            risk_summary := "Analysis was inconclusive due to an AI model error."
            evidence_summary := r.evidence_summary ++
              [{ step := "Legal Document Review (AI)", result := "Failure",
                 detail := "AI model returned an unexpected or empty result." }] } }

/-- Step 2b of `analyze_asset` (`src/app/api.py` lines 119-142): the
public news and gazette scan, continuing into the AI review on
success. -/
def newsScanStep (env : Env) (owner : CsvCell) (r : FinalReport) : AnalyzeOutcome :=
  match env.newsRead with
  | .error e =>
    { httpError := some (500, "Could not scan news records: " ++ e)
      report :=
        { r with
          evidence_summary := r.evidence_summary ++
            [{ step := "Public News & Gazette Scan", result := "Failure",
               detail := "Could not scan news records: " ++ e }] } }
  | .ok alerts =>
    match selectRelevant owner alerts with
    | none =>
      { httpError := some (500, "Could not scan news records: " ++ floatInTypeErrorText)
        report :=
          { r with
            evidence_summary := r.evidence_summary ++
              [{ step := "Public News & Gazette Scan", result := "Failure",
                 detail := "Could not scan news records: " ++ floatInTypeErrorText }] } }
    | some relevant =>
      aiReviewStep env
        { r with evidence_summary := r.evidence_summary ++ [newsEvidence owner relevant] }

/-- Embedding of the endpoint body `src/app/api.py:analyze_asset`
(lines 77-179).  `now` stands for the `datetime.utcnow()` timestamp
taken at entry. -/
def analyze_asset (env : Env) (token_id now : String) : AnalyzeOutcome :=
  let r0 := initialReport token_id now
  match get_asset_data env with
  | none =>
    { httpError := some (404, "Asset token '" ++ token_id ++ "' not found in metadata registry.")
      report :=
        { r0 with
          details := some ("Asset token '" ++ token_id ++ "' not found in metadata registry.")
          evidence_summary :=
            [{ step := "Initial Data Ingestion", result := "Failure",
               detail := "Could not find metadata for token '" ++ token_id ++ "'." }] } }
  | some ad =>
    match env.registryRead with
    | .error e =>
      { httpError := some (404, "Could not verify asset in land registry: " ++ e)
        report := { r0 with evidence_summary := [registryErrorEvidence e] } }
    | .ok rows =>
      match rows.find? (fun row => row.c_of_o_id == ad.registry_key) with
      | none =>
        { httpError := some (404, "Could not verify asset in land registry: Asset not found in registry.")
          report :=
            { r0 with
              evidence_summary := [registryErrorEvidence "Asset not found in registry."] } }
      | some row =>
        newsScanStep env row.owner_name
          { r0 with evidence_summary := [registryFoundEvidence ad.registry_key row.status] }

/-- State of the `final_report` dict of
`src/app/main.py:perform_asset_analysis`.  There `risk_assessment` is
replaced wholesale by the LLM result on success, and `details` can be
assigned the raw `llm_result.get("message", ...)` value, so both fields
are JSON values. -/
structure CoreReport where
  token_id : String
  status : String
  risk_assessment : JsonVal
  details : JsonVal

/-- Placeholder for the interpreter text of the `AttributeError` raised
by calling `.get` on a non-dict value; no claim inspects it. -/
def getAttrErrorText : String :=
  "object has no attribute get"

/-- Embedding of `src/app/main.py:perform_asset_analysis` (lines
149-198).  A `TypeError`/`AttributeError` raised while classifying the
LLM result is caught by the function's own handler (lines 191-195). -/
def perform_asset_analysis (env : Env) (token_id : String) : CoreReport :=
  let r0 : CoreReport :=
    { token_id := token_id
      status := "Failed"
      risk_assessment := .obj [("potential_risk_type", .str "Analysis Error")]
      details := .str "An unexpected error occurred during analysis." }
  let unexpectedResult : CoreReport :=
    { r0 with
      status := "Partial Success"
      risk_assessment := .obj [("potential_risk_type", .str "Unknown Risk")]
      details := .str "LLM investigation returned an unexpected or empty result." }
  match run_llm_investigation env with
  | none => unexpectedResult
  | some v =>
    if v.truthy then
      match pyContains "error" v with
      | none =>
        { r0 with
          details := .str ("Critical error during LLM investigation: " ++ inTypeErrorText) }
      | some true =>
        match v with
        | .obj fs =>
          let r1 := { r0 with
            details := (lookupFields fs "message").getD (.str "LLM investigation failed.") }
          if ((lookupFields fs "message").getD .null).isStrEq "Asset not found." then
            { r1 with
              status := "Not Found"
              risk_assessment := .obj [("potential_risk_type", .str "Asset Not Found")] }
          else r1
        | _ =>
          { r0 with
            details := .str ("Critical error during LLM investigation: " ++ getAttrErrorText) }
      | some false =>
        match pyContains "potential_risk_type" v with
        | none =>
          { r0 with
            details := .str ("Critical error during LLM investigation: " ++ inTypeErrorText) }
        | some true =>
          { r0 with
            status := "Success"
            risk_assessment := v
            details := .str "LLM investigation completed successfully." }
        | some false => unexpectedResult
    else unexpectedResult

/-- Number of collector steps actually attempted by `analyze_asset` in
a given environment: the registry verification always runs once the
asset resolves; the news scan runs unless the registry step was fatal;
the AI review runs unless the news read raised or the NaN-owner
membership test raised inside the news comprehension. -/
def collectorsAttempted (env : Env) : Nat :=
  match env.asset with
  | none => 0
  | some ad =>
    match env.registryRead with
    | .error _ => 1
    | .ok rows =>
      match rows.find? (fun row => row.c_of_o_id == ad.registry_key) with
      | none => 1
      | some row =>
        match env.newsRead with
        | .error _ => 2
        | .ok alerts =>
          match selectRelevant row.owner_name alerts with
          | none => 2
          | some _ => 3

/-- Modelled from the spec: evidence outcome enum of the spec's
`EvidenceRecord` (section 3); the `zk_proof_simulator` module that
consumes the report is not present in the source tree. -/
inductive SpecOutcome where
  | success
  | failure
deriving DecidableEq

/-- Modelled from the spec: the spec's `overall_status` enum
(section 3). -/
inductive OverallStatus where
  | success
  | partialSuccess
  | failed
  | notFound
deriving DecidableEq

/-- Modelled from the spec: the spec's `risk_category` enum
(section 3). -/
inductive RiskCategory where
  | titleDispute
  | financialPledge
  | governmentRevocation
  | noRiskFound
  | unknown
  | analysisError
deriving DecidableEq

/-- Modelled from the spec: the spec's `EvidenceRecord` (section 3). -/
structure SpecEvidence where
  step_name : String
  outcome : SpecOutcome
  detail : String
deriving DecidableEq

/-- Modelled from the spec: the spec's `AssetRiskReport` (section 3),
the input of the attestation stub. -/
structure SpecReport where
  asset_id : String
  overall_status : OverallStatus
  risk_category : RiskCategory
  narrative : String
  evidence_trail : List SpecEvidence
  generated_at : String
deriving DecidableEq

/-- Modelled from the spec: the spec's `AttestationToken` (section 3),
a report fingerprint plus a mock signature. -/
structure AttestationToken where
  report_fingerprint : String
  mock_signature : String
deriving DecidableEq

/-- Length-prefixed character encoding of one string: a unary length
prefix, a separator, then the characters.  The prefix makes the chunks
of a concatenation recoverable. -/
def encS (s : String) : List Char :=
  List.replicate s.length '#' ++ ':' :: s.data

/-- Single-character code of a `SpecOutcome`. -/
def encOutcome : SpecOutcome → Char
  | .success => 'S'
  | .failure => 'F'

/-- Single-character code of an `OverallStatus`. -/
def encStatus : OverallStatus → Char
  | .success => 's'
  | .partialSuccess => 'p'
  | .failed => 'f'
  | .notFound => 'n'

/-- Single-character code of a `RiskCategory`. -/
def encCat : RiskCategory → Char
  | .titleDispute => 'T'
  | .financialPledge => 'P'
  | .governmentRevocation => 'G'
  | .noRiskFound => 'N'
  | .unknown => 'U'
  | .analysisError => 'A'

/-- Encoding of one evidence record. -/
def encEv (e : SpecEvidence) : List Char :=
  encS e.step_name ++ encOutcome e.outcome :: encS e.detail

/-- Encoding of the evidence trail: unary count prefix, then the
records in order. -/
def encEvList (l : List SpecEvidence) : List Char :=
  List.replicate l.length '#' ++ ':' :: (l.map encEv).flatten

/-- Canonical serialization of a whole report; every field
participates. -/
def encodeReport (r : SpecReport) : List Char :=
  encS r.asset_id ++ encStatus r.overall_status :: encCat r.risk_category ::
    (encS r.narrative ++ (encEvList r.evidence_trail ++ encS r.generated_at))

/-- Modelled from the spec: the attestation stub
`zk_proof_simulator.generate_mock_zk_proof` called by
`src/app/api.py:analyze_asset` is absent from the source tree; section
4.6 of the spec specifies it as a deterministic function of the report
content with a fingerprint and a mock signature, which this model
realizes by fingerprinting the canonical serialization. -/
def generate_mock_zk_proof (r : SpecReport) : AttestationToken :=
  { report_fingerprint := String.mk (encodeReport r)
    mock_signature := "MOCK_ZK_SIGNATURE_" ++ String.mk (encodeReport r) }

theorem replicate_colon_inj (n : Nat) : ∀ (m : Nat) (t1 t2 : List Char),
    List.replicate n '#' ++ ':' :: t1 = List.replicate m '#' ++ ':' :: t2 →
    n = m ∧ t1 = t2 := by
  induction n with
  | zero =>
    intro m t1 t2 h
    cases m with
    | zero => simpa using h
    | succ m =>
      rw [List.replicate_succ] at h
      simp only [List.replicate, List.nil_append, List.cons_append, List.cons.injEq] at h
      exact absurd h.1 (by decide)
  | succ n ih =>
    intro m t1 t2 h
    cases m with
    | zero =>
      rw [List.replicate_succ] at h
      simp only [List.replicate, List.nil_append, List.cons_append, List.cons.injEq] at h
      exact absurd h.1 (by decide)
    | succ m =>
      rw [List.replicate_succ, List.replicate_succ] at h
      simp only [List.cons_append, List.cons.injEq] at h
      obtain ⟨h3, h4⟩ := ih m t1 t2 h.2
      exact ⟨by omega, h4⟩

theorem encS_append_inj {a b : String} {x y : List Char}
    (h : encS a ++ x = encS b ++ y) : a = b ∧ x = y := by
  have h' : List.replicate a.length '#' ++ ':' :: (a.data ++ x)
      = List.replicate b.length '#' ++ ':' :: (b.data ++ y) := by
    simpa [encS, List.append_assoc] using h
  obtain ⟨hlen, hdata⟩ := replicate_colon_inj a.length b.length _ _ h'
  have hdlen : a.data.length = b.data.length := hlen
  obtain ⟨hd, ht⟩ := List.append_inj hdata hdlen
  refine ⟨?_, ht⟩
  cases a
  cases b
  exact congrArg String.mk hd

theorem encS_inj {a b : String} (h : encS a = encS b) : a = b := by
  have h' : encS a ++ ([] : List Char) = encS b ++ [] := by simp [h]
  exact (encS_append_inj h').1

theorem encOutcome_inj {a b : SpecOutcome} (h : encOutcome a = encOutcome b) : a = b := by
  cases a <;> cases b <;> first | rfl | exact absurd h (by decide)

theorem encStatus_inj {a b : OverallStatus} (h : encStatus a = encStatus b) : a = b := by
  cases a <;> cases b <;> first | rfl | exact absurd h (by decide)

theorem encCat_inj {a b : RiskCategory} (h : encCat a = encCat b) : a = b := by
  cases a <;> cases b <;> first | rfl | exact absurd h (by decide)

theorem encEv_append_inj {a b : SpecEvidence} {x y : List Char}
    (h : encEv a ++ x = encEv b ++ y) : a = b ∧ x = y := by
  have h1 : encS a.step_name ++ (encOutcome a.outcome :: (encS a.detail ++ x))
      = encS b.step_name ++ (encOutcome b.outcome :: (encS b.detail ++ y)) := by
    simpa [encEv, List.append_assoc] using h
  obtain ⟨hstep, h2⟩ := encS_append_inj h1
  injection h2 with ho h3
  obtain ⟨hdet, hxy⟩ := encS_append_inj h3
  have ho' := encOutcome_inj ho
  refine ⟨?_, hxy⟩
  cases a
  cases b
  simp_all

theorem encEvFlatten_inj : ∀ (l1 l2 : List SpecEvidence) (x y : List Char),
    l1.length = l2.length →
    (l1.map encEv).flatten ++ x = (l2.map encEv).flatten ++ y →
    l1 = l2 ∧ x = y := by
  intro l1
  induction l1 with
  | nil =>
    intro l2 x y hl h
    cases l2 with
    | nil => simpa using h
    | cons e2 t2 => simp at hl
  | cons e t ih =>
    intro l2 x y hl h
    cases l2 with
    | nil => simp at hl
    | cons e2 t2 =>
      have h' : encEv e ++ ((t.map encEv).flatten ++ x)
          = encEv e2 ++ ((t2.map encEv).flatten ++ y) := by
        simpa [List.append_assoc] using h
      obtain ⟨he, h2⟩ := encEv_append_inj h'
      obtain ⟨ht, hxy⟩ := ih t2 x y (by simpa using hl) h2
      exact ⟨by rw [he, ht], hxy⟩

theorem encEvList_append_inj {l1 l2 : List SpecEvidence} {x y : List Char}
    (h : encEvList l1 ++ x = encEvList l2 ++ y) : l1 = l2 ∧ x = y := by
  have h' : List.replicate l1.length '#' ++ ':' :: ((l1.map encEv).flatten ++ x)
      = List.replicate l2.length '#' ++ ':' :: ((l2.map encEv).flatten ++ y) := by
    simpa [encEvList, List.append_assoc] using h
  obtain ⟨hlen, hdata⟩ := replicate_colon_inj _ _ _ _ h'
  exact encEvFlatten_inj l1 l2 x y hlen hdata

theorem encodeReport_inj {r1 r2 : SpecReport}
    (h : encodeReport r1 = encodeReport r2) : r1 = r2 := by
  simp only [encodeReport] at h
  obtain ⟨hid, h2⟩ := encS_append_inj h
  injection h2 with hs h3
  injection h3 with hc h4
  obtain ⟨hn, h5⟩ := encS_append_inj h4
  obtain ⟨he, h6⟩ := encEvList_append_inj h5
  have hg := encS_inj h6
  have hs' := encStatus_inj hs
  have hc' := encCat_inj hc
  cases r1
  cases r2
  simp_all

theorem isPrefixOf_append_self (s b : List Char) : s.isPrefixOf (s ++ b) = true := by
  induction s with
  | nil => simp [List.isPrefixOf]
  | cons c t ih => simp [List.isPrefixOf, ih]

theorem listContains_append (a s b : List Char) :
    listContains (a ++ s ++ b) s = true := by
  unfold listContains
  rw [List.any_eq_true]
  refine ⟨a.length, List.mem_range.mpr ?_, ?_⟩
  · simp only [List.length_append]
    omega
  · rw [List.append_assoc, List.drop_left]
    exact isPrefixOf_append_self s b

theorem strContains_middle (a s b : String) : strContains (a ++ s ++ b) s = true := by
  unfold strContains
  have h : (a ++ s ++ b).data = a.data ++ s.data ++ b.data := by
    cases a
    cases s
    cases b
    rfl
  rw [h]
  exact listContains_append _ _ _

theorem aiReviewStep_evidence_append (env : Env) (r : FinalReport) :
    ∃ tail, (aiReviewStep env r).report.evidence_summary = r.evidence_summary ++ tail := by
  unfold aiReviewStep
  repeat' split
  all_goals first
    | exact ⟨_, rfl⟩
    | exact ⟨[], (List.append_nil _).symm⟩

theorem newsScanStep_evidence_append (env : Env) (owner : CsvCell) (r : FinalReport) :
    ∃ tail, (newsScanStep env owner r).report.evidence_summary = r.evidence_summary ++ tail := by
  unfold newsScanStep
  split
  · exact ⟨_, rfl⟩
  · split
    · exact ⟨_, rfl⟩
    · rename_i relevant _
      obtain ⟨t, ht⟩ := aiReviewStep_evidence_append env
        { r with evidence_summary := r.evidence_summary ++ [newsEvidence owner relevant] }
      refine ⟨[newsEvidence owner relevant] ++ t, ?_⟩
      rw [← List.append_assoc]
      exact ht

/-- Concrete environment whose asset identifier resolves to no metadata
entry. -/
def envMissingAsset : Env :=
  { apiKeyOk := true
    asset := none
    deedRead := some "deed text"
    registryRead := .ok []
    newsRead := .ok []
    chatText := none
    parse := fun _ => none }

/-- C1 counterexample: for an asset id absent from the metadata store
the claim asserts a report with overall status NotFound and an empty
evidence trail; the code instead leaves the report status at "Failed"
and appends one ingestion-failure record before raising the 404. -/
theorem analyze_missing_asset_cex :
    ¬ ((analyze_asset envMissingAsset "T-404" "2026-01-01T00:00:00Z").report.status = "Not Found"
        ∧ (analyze_asset envMissingAsset "T-404" "2026-01-01T00:00:00Z").report.evidence_summary = [])
      ∧ (analyze_asset envMissingAsset "T-404" "2026-01-01T00:00:00Z").report.status = "Failed"
      ∧ (analyze_asset envMissingAsset "T-404" "2026-01-01T00:00:00Z").report.evidence_summary.length = 1 := by
  refine ⟨fun h => ?_, rfl, rfl⟩
  have h2 := h.2
  rw [show (analyze_asset envMissingAsset "T-404" "2026-01-01T00:00:00Z").report.evidence_summary
      = [{ step := "Initial Data Ingestion", result := "Failure",
           detail := "Could not find metadata for token 'T-404'." }] from rfl] at h2
  cases h2

/-- C1 amended: for every asset identifier not present in the metadata
store, `analyze_asset` terminates by raising a 404 NotFound error; the
report assembled at that moment has status "Failed" and an evidence
trail consisting of exactly one ingestion-failure record, not an empty
trail. -/
theorem analyze_missing_asset (env : Env) (token_id now : String)
    (h : env.asset = none) :
    (analyze_asset env token_id now).httpError
        = some (404, "Asset token '" ++ token_id ++ "' not found in metadata registry.")
      ∧ (analyze_asset env token_id now).report.status = "Failed"
      ∧ (analyze_asset env token_id now).report.evidence_summary
        = [{ step := "Initial Data Ingestion", result := "Failure",
             detail := "Could not find metadata for token '" ++ token_id ++ "'." }] := by
  simp [analyze_asset, get_asset_data, h, initialReport]

/-- C1 witness: the amended statement evaluated on a concrete
environment with no metadata entry. -/
theorem analyze_missing_asset_witness :
    (analyze_asset envMissingAsset "T-1" "ts").httpError
        = some (404, "Asset token '" ++ "T-1" ++ "' not found in metadata registry.")
      ∧ (analyze_asset envMissingAsset "T-1" "ts").report.status = "Failed"
      ∧ (analyze_asset envMissingAsset "T-1" "ts").report.evidence_summary
        = [{ step := "Initial Data Ingestion", result := "Failure",
             detail := "Could not find metadata for token '" ++ "T-1" ++ "'." }] :=
  analyze_missing_asset envMissingAsset "T-1" "ts" rfl

/-- C2: for every asset whose registry row is found, the registry
evidence record (the first entry of the trail) has outcome Success if
and only if the row's status equals "Verified" by case-sensitive exact
string comparison; otherwise the outcome is Failure and the detail
string contains the actual status value. -/
theorem registry_verifier_outcome (env : Env) (token_id now : String)
    (ad : AssetData) (rows : List RegistryRow) (row : RegistryRow)
    (h1 : env.asset = some ad) (h2 : env.registryRead = .ok rows)
    (h3 : rows.find? (fun r => r.c_of_o_id == ad.registry_key) = some row) :
    ∃ e : Evidence,
      (analyze_asset env token_id now).report.evidence_summary.head? = some e
      ∧ e.step = "Land Registry Verification"
      ∧ (e.result = "Success" ↔ row.status = "Verified")
      ∧ (row.status ≠ "Verified" → e.result = "Failure")
      ∧ strContains e.detail row.status = true := by
  refine ⟨registryFoundEvidence ad.registry_key row.status, ?_, rfl, ?_, ?_, ?_⟩
  · have hred : analyze_asset env token_id now
        = newsScanStep env row.owner_name
            { initialReport token_id now with
              evidence_summary := [registryFoundEvidence ad.registry_key row.status] } := by
      simp [analyze_asset, get_asset_data, h1, h2, h3]
    rw [hred]
    obtain ⟨t, ht⟩ := newsScanStep_evidence_append env row.owner_name
      { initialReport token_id now with
        evidence_summary := [registryFoundEvidence ad.registry_key row.status] }
    rw [ht]
    rfl
  · rcases eq_or_ne row.status "Verified" with hb | hb
    · simp [registryFoundEvidence, hb]
    · simp [registryFoundEvidence, hb]
  · intro hb
    simp [registryFoundEvidence, hb]
  · show strContains
      ("Asset with C-of-O ID '" ++ ad.registry_key ++ "' found. Status is '" ++ row.status ++ "'.")
      row.status = true
    exact strContains_middle
      ("Asset with C-of-O ID '" ++ ad.registry_key ++ "' found. Status is '")
      row.status "'."

/-- Concrete environment whose registry holds the golden record with
status "Under Dispute". -/
def envUnderDispute : Env :=
  { apiKeyOk := false
    asset := some { registry_key := "C-OF-O-LAG-001" }
    deedRead := none
    registryRead := .ok
      [{ c_of_o_id := "C-OF-O-LAG-001", status := "Under Dispute",
         owner_name := .str "RealVest Nigeria PLC" }]
    newsRead := .ok []
    chatText := none
    parse := fun _ => none }

/-- C2 witness: the registry-verifier property evaluated on the golden
record whose status is "Under Dispute". -/
theorem registry_verifier_outcome_witness :
    ∃ e : Evidence,
      (analyze_asset envUnderDispute "NGA-LAG-001" "ts").report.evidence_summary.head? = some e
      ∧ e.step = "Land Registry Verification"
      ∧ (e.result = "Success" ↔ "Under Dispute" = "Verified")
      ∧ ("Under Dispute" ≠ "Verified" → e.result = "Failure")
      ∧ strContains e.detail "Under Dispute" = true :=
  registry_verifier_outcome envUnderDispute "NGA-LAG-001" "ts"
    { registry_key := "C-OF-O-LAG-001" }
    [{ c_of_o_id := "C-OF-O-LAG-001", status := "Under Dispute",
       owner_name := .str "RealVest Nigeria PLC" }]
    { c_of_o_id := "C-OF-O-LAG-001", status := "Under Dispute",
      owner_name := .str "RealVest Nigeria PLC" }
    rfl rfl (by decide)

/-- Concrete environment with a readable registry that contains no row
for the asset's lookup key, and a perfectly healthy news feed and AI
reviewer behind it. -/
def envRowMissing : Env :=
  { apiKeyOk := true
    asset := some { registry_key := "C-OF-O-XXX-999" }
    deedRead := some "deed text"
    registryRead := .ok
      [{ c_of_o_id := "C-OF-O-LAG-001", status := "Verified", owner_name := .str "A" }]
    newsRead := .ok [{ headline := some "H", summary := some "S" }]
    chatText := some "x"
    parse := fun _ => some (.obj [("potential_risk_type", .str "No Risk Found")]) }

/-- C3 counterexample: with a readable registry lacking the row, the
code raises a 404 and the trail stops at the single registry Failure
record: the news scan never runs, contradicting the claim that the
pipeline continues. -/
theorem registry_row_missing_cex :
    (analyze_asset envRowMissing "T-2" "ts").httpError
        = some (404, "Could not verify asset in land registry: Asset not found in registry.")
      ∧ (analyze_asset envRowMissing "T-2" "ts").report.evidence_summary.length = 1
      ∧ ∀ e ∈ (analyze_asset envRowMissing "T-2" "ts").report.evidence_summary,
          e.step ≠ "Public News & Gazette Scan" := by
  decide

/-- C3 amended: when the registry file is readable but contains no row
for the asset's lookup key, the Registry Verifier appends a Failure
evidence record and the run aborts with a 404 error — a missing row is
fatal exactly like an unreadable registry file, both flowing through
the same exception handler. -/
theorem registry_row_missing_aborts (env : Env) (token_id now : String)
    (ad : AssetData) (rows : List RegistryRow)
    (h1 : env.asset = some ad) (h2 : env.registryRead = .ok rows)
    (h3 : rows.find? (fun r => r.c_of_o_id == ad.registry_key) = none) :
    (analyze_asset env token_id now).httpError
        = some (404, "Could not verify asset in land registry: Asset not found in registry.")
      ∧ (analyze_asset env token_id now).report.evidence_summary
        = [registryErrorEvidence "Asset not found in registry."] := by
  simp [analyze_asset, get_asset_data, h1, h2, h3]

/-- C3 witness: the amended statement evaluated on the concrete
environment with the missing row. -/
theorem registry_row_missing_aborts_witness :
    (analyze_asset envRowMissing "T-3" "ts").httpError
        = some (404, "Could not verify asset in land registry: Asset not found in registry.")
      ∧ (analyze_asset envRowMissing "T-3" "ts").report.evidence_summary
        = [registryErrorEvidence "Asset not found in registry."] :=
  registry_row_missing_aborts envRowMissing "T-3" "ts"
    { registry_key := "C-OF-O-XXX-999" }
    [{ c_of_o_id := "C-OF-O-LAG-001", status := "Verified", owner_name := .str "A" }]
    rfl rfl (by decide)

/-- Concrete environment whose registry row has a missing (NaN) owner
cell and whose news feed is nonempty, with every later stage healthy;
the NaN owner is truthy, so the membership test raises. -/
def envNanOwner : Env :=
  { apiKeyOk := true
    asset := some { registry_key := "C-OF-O-AWK-009" }
    deedRead := some "deed text"
    registryRead := .ok
      [{ c_of_o_id := "C-OF-O-AWK-009", status := "Verified", owner_name := .nan }]
    newsRead := .ok [{ headline := some "H", summary := some "S" }]
    chatText := some "x"
    parse := fun _ => some (.obj [("potential_risk_type", .str "No Risk Found")]) }

/-- C4 counterexample: with a missing (NaN) owner cell and a nonempty
feed, the membership test raises TypeError, so the news scan appends a
Failure record and aborts with HTTP 500 — the claimed Success outcome
for a missing owner name does not occur. -/
theorem adverse_news_missing_owner_cex :
    (analyze_asset envNanOwner "T-4n" "ts").httpError
        = some (500, "Could not scan news records: " ++ floatInTypeErrorText)
      ∧ (analyze_asset envNanOwner "T-4n" "ts").report.evidence_summary.get? 1
        = some { step := "Public News & Gazette Scan", result := "Failure",
                 detail := "Could not scan news records: " ++ floatInTypeErrorText }
      ∧ (analyze_asset envNanOwner "T-4n" "ts").report.status = "Failed" :=
  ⟨rfl, rfl, rfl⟩

/-- C4 amended: for a present (string) owner name the news-scan record
(second trail entry) is Success when the owner is empty or matches no
alert summary as a case-sensitive literal substring, and Failure
otherwise with its detail listing the headline of every matching
alert, one per match, in the feed's original order, joined by ", ".  A
missing (NaN) owner cell, however, is truthy, so on any nonempty feed
the membership test raises TypeError: the scan appends a Failure
record and the run aborts with HTTP 500; only over an empty feed does
a missing owner still yield Success. -/
theorem adverse_news_scan (env : Env) (token_id now : String)
    (ad : AssetData) (rows : List RegistryRow) (row : RegistryRow) (alerts : List NewsAlert)
    (h1 : env.asset = some ad) (h2 : env.registryRead = .ok rows)
    (h3 : rows.find? (fun r => r.c_of_o_id == ad.registry_key) = some row)
    (h4 : env.newsRead = .ok alerts) :
    (∀ s, row.owner_name = .str s →
      ∃ e : Evidence,
        (analyze_asset env token_id now).report.evidence_summary.get? 1 = some e
        ∧ e.step = "Public News & Gazette Scan"
        ∧ (s = "" → alerts.filter (newsMatches s) = [])
        ∧ (alerts.filter (newsMatches s) = [] → e.result = "Success")
        ∧ (alerts.filter (newsMatches s) ≠ [] →
            e.result = "Failure"
            ∧ e.detail = "Found " ++ toString (alerts.filter (newsMatches s)).length
                ++ " adverse news record(s) concerning owner '" ++ s
                ++ "'. Headlines: "
                ++ String.intercalate ", "
                    ((alerts.filter (newsMatches s)).map fun a => a.headline.getD "N/A")))
    ∧ (row.owner_name = .nan → alerts ≠ [] →
        (analyze_asset env token_id now).httpError
            = some (500, "Could not scan news records: " ++ floatInTypeErrorText)
          ∧ (analyze_asset env token_id now).report.evidence_summary.get? 1
            = some { step := "Public News & Gazette Scan", result := "Failure",
                     detail := "Could not scan news records: " ++ floatInTypeErrorText })
    ∧ (row.owner_name = .nan → alerts = [] →
        ∃ e : Evidence,
          (analyze_asset env token_id now).report.evidence_summary.get? 1 = some e
          ∧ e.step = "Public News & Gazette Scan"
          ∧ e.result = "Success") := by
  have hred : analyze_asset env token_id now
      = newsScanStep env row.owner_name
          { initialReport token_id now with
            evidence_summary := [registryFoundEvidence ad.registry_key row.status] } := by
    simp [analyze_asset, get_asset_data, h1, h2, h3]
  refine ⟨?_, ?_, ?_⟩
  · intro s hs
    have hsel : selectRelevant row.owner_name alerts
        = some (alerts.filter (newsMatches s)) := by
      rw [hs]
      rfl
    have hred2 : newsScanStep env row.owner_name
        { initialReport token_id now with
          evidence_summary := [registryFoundEvidence ad.registry_key row.status] }
        = aiReviewStep env
            { initialReport token_id now with
              evidence_summary := [registryFoundEvidence ad.registry_key row.status,
                newsEvidence row.owner_name (alerts.filter (newsMatches s))] } := by
      simp [newsScanStep, h4, hsel]
    obtain ⟨t, ht⟩ := aiReviewStep_evidence_append env
      { initialReport token_id now with
        evidence_summary := [registryFoundEvidence ad.registry_key row.status,
          newsEvidence row.owner_name (alerts.filter (newsMatches s))] }
    refine ⟨newsEvidence row.owner_name (alerts.filter (newsMatches s)),
      ?_, ?_, ?_, ?_, ?_⟩
    · rw [hred, hred2, ht]
      rfl
    · unfold newsEvidence
      split <;> rfl
    · intro howner
      simp [newsMatches, howner]
    · intro hrel
      simp [newsEvidence, hrel]
    · intro hrel
      have hne : (alerts.filter (newsMatches s)).isEmpty = false := by
        rcases hv : alerts.filter (newsMatches s) with _ | ⟨a, l⟩
        · exact absurd hv hrel
        · rfl
      constructor
      · simp [newsEvidence, hne]
      · simp [newsEvidence, hne, hs, pyStrCell]
  · intro hs hne
    have hae : alerts.isEmpty = false := by
      rcases hv : alerts with _ | ⟨a, l⟩
      · exact absurd hv hne
      · rfl
    have hsel : selectRelevant row.owner_name alerts = none := by
      rw [hs]
      simp [selectRelevant, hae]
    rw [hred]
    constructor
    · simp [newsScanStep, h4, hsel]
    · simp [newsScanStep, h4, hsel]
  · intro hs hae
    have hsel : selectRelevant row.owner_name alerts = some [] := by
      rw [hs, hae]
      rfl
    have hred2 : newsScanStep env row.owner_name
        { initialReport token_id now with
          evidence_summary := [registryFoundEvidence ad.registry_key row.status] }
        = aiReviewStep env
            { initialReport token_id now with
              evidence_summary := [registryFoundEvidence ad.registry_key row.status,
                newsEvidence row.owner_name []] } := by
      simp [newsScanStep, h4, hsel]
    obtain ⟨t, ht⟩ := aiReviewStep_evidence_append env
      { initialReport token_id now with
        evidence_summary := [registryFoundEvidence ad.registry_key row.status,
          newsEvidence row.owner_name []] }
    refine ⟨newsEvidence row.owner_name [], ?_, rfl, rfl⟩
    rw [hred, hred2, ht]
    rfl

/-- Concrete environment whose registry row owner appears in exactly
one of two news alert summaries. -/
def envNewsMatch : Env :=
  { apiKeyOk := false
    asset := some { registry_key := "C-OF-O-LAG-001" }
    deedRead := none
    registryRead := .ok
      [{ c_of_o_id := "C-OF-O-LAG-001", status := "Verified",
         owner_name := .str "RealVest Nigeria PLC" }]
    newsRead := .ok
      [{ headline := some "Public Notice of Litigation",
         summary := some "A lawsuit has been filed against RealVest Nigeria PLC concerning title." },
       { headline := some "Unrelated Story",
         summary := some "Nothing about the owner here." }]
    chatText := none
    parse := fun _ => none }

/-- C4 witness: on a feed with one matching alert the news record is a
Failure naming that alert's headline. -/
theorem adverse_news_scan_witness :
    ∃ e : Evidence,
      (analyze_asset envNewsMatch "T-4" "ts").report.evidence_summary.get? 1 = some e
      ∧ e.result = "Failure"
      ∧ e.detail = "Found 1 adverse news record(s) concerning owner 'RealVest Nigeria PLC'. Headlines: Public Notice of Litigation" := by
  obtain ⟨hstr, hnan, hemp⟩ := adverse_news_scan envNewsMatch "T-4" "ts"
    { registry_key := "C-OF-O-LAG-001" }
    [{ c_of_o_id := "C-OF-O-LAG-001", status := "Verified",
       owner_name := .str "RealVest Nigeria PLC" }]
    { c_of_o_id := "C-OF-O-LAG-001", status := "Verified",
      owner_name := .str "RealVest Nigeria PLC" }
    [{ headline := some "Public Notice of Litigation",
       summary := some "A lawsuit has been filed against RealVest Nigeria PLC concerning title." },
     { headline := some "Unrelated Story",
       summary := some "Nothing about the owner here." }]
    rfl rfl (by decide) rfl
  obtain ⟨e, he1, he2, he3, he4, he5⟩ := hstr "RealVest Nigeria PLC" rfl
  obtain ⟨hr, hd⟩ := he5 (by decide)
  refine ⟨e, he1, hr, ?_⟩
  rw [hd]
  decide

/-- Concrete environment in which the AI responds with a fenced JSON
object whose required field carries a value outside the four enumerated
risk categories; the parse oracle accepts any cleaned text with that
object. -/
def envBogusCategory : Env :=
  { apiKeyOk := true
    asset := some { registry_key := "C-OF-O-LAG-001" }
    deedRead := some "deed text"
    registryRead := .ok
      [{ c_of_o_id := "C-OF-O-LAG-001", status := "Verified", owner_name := .str "A" }]
    newsRead := .ok []
    chatText := some "```json\n\x7b\"potential_risk_type\": \"Made Up Category\"\x7d\n```"
    parse := fun _ => some (.obj [("potential_risk_type", .str "Made Up Category")]) }

/-- C5 counterexample: a successfully parsed response whose field value
lies outside the enumerated categories is returned as-is, not as null,
contradicting the claim that such values make the reviewer return
null. -/
theorem reviewer_returns_parsed_value_cex :
    run_llm_investigation envBogusCategory
        = some (.obj [("potential_risk_type", .str "Made Up Category")])
      ∧ ("Made Up Category" ∈
          ["Title Dispute", "Financial Pledge", "Government Revocation", "No Risk Found"]) = False := by
  constructor
  · rfl
  · simp

/-- C5 amended: the reviewer strips the code-fence markers (all
occurrences) from the stripped raw response and parses the remainder as
JSON; a parse failure — and any upstream failure, including an empty
response or the NaN-owner TypeError inside the data-gathering step —
yields null and never raises, but a successfully parsed value is
returned unchanged even when the required field is missing or its
value is outside the enumerated categories: those cases are left to
the orchestrator. -/
theorem reviewer_returns_parsed_value (env : Env) (raw : String)
    (ad : AssetData) (rows : List RegistryRow) (alerts : List NewsAlert)
    (hk : env.apiKeyOk = true) (ha : env.asset = some ad)
    (hd : ∃ d, env.deedRead = some d) (hr : env.registryRead = .ok rows)
    (hn : env.newsRead = .ok alerts) (hc : env.chatText = some raw)
    (hsel : selectRelevant (ownerOf rows ad.registry_key) alerts ≠ none) :
    run_llm_investigation env = env.parse (stripFences raw) := by
  obtain ⟨d, hdd⟩ := hd
  rcases hos : selectRelevant (ownerOf rows ad.registry_key) alerts with _ | rel
  · exact absurd hos hsel
  · simp [run_llm_investigation, get_asset_data, hk, ha, hdd, hr, hn, hos, hc]

/-- C5 witness: the amended statement evaluated on the concrete
fenced-response environment. -/
theorem reviewer_returns_parsed_value_witness :
    run_llm_investigation envBogusCategory
      = envBogusCategory.parse
          (stripFences "```json\n\x7b\"potential_risk_type\": \"Made Up Category\"\x7d\n```") :=
  reviewer_returns_parsed_value envBogusCategory
    "```json\n\x7b\"potential_risk_type\": \"Made Up Category\"\x7d\n```"
    { registry_key := "C-OF-O-LAG-001" }
    [{ c_of_o_id := "C-OF-O-LAG-001", status := "Verified", owner_name := .str "A" }]
    []
    rfl rfl ⟨_, rfl⟩ rfl rfl rfl (by decide)

theorem lookupFields_any_key (fs : List (String × JsonVal)) (k : String) (v : JsonVal)
    (h : lookupFields fs k = some v) : (fs.any fun p => p.1 == k) = true := by
  induction fs with
  | nil => exact absurd h (by simp [lookupFields])
  | cons p rest ih =>
    rcases p with ⟨k', v'⟩
    simp only [lookupFields] at h
    by_cases hk : (k' == k) = true
    · simp [List.any_cons, hk]
    · rw [if_neg hk] at h
      simp [List.any_cons, hk, ih h]

theorem obj_truthy_of_lookup (fs : List (String × JsonVal)) (k : String) (v : JsonVal)
    (h : lookupFields fs k = some v) : (JsonVal.obj fs).truthy = true := by
  cases fs with
  | nil => exact absurd h (by simp [lookupFields])
  | cons p rest => rfl

theorem run_llm_some_selectRelevant (env : Env) (v : JsonVal) (ad : AssetData)
    (rows : List RegistryRow) (alerts : List NewsAlert)
    (h : run_llm_investigation env = some v)
    (h1 : env.asset = some ad) (h2 : env.registryRead = .ok rows)
    (h4 : env.newsRead = .ok alerts) :
    ∃ rel, selectRelevant (ownerOf rows ad.registry_key) alerts = some rel := by
  by_cases hk : env.apiKeyOk = true
  · rcases hd : env.deedRead with _ | d
    · simp [run_llm_investigation, get_asset_data, hk, h1, hd, h2, h4] at h
    · rcases hos : selectRelevant (ownerOf rows ad.registry_key) alerts with _ | rel
      · simp [run_llm_investigation, get_asset_data, hk, h1, hd, h2, h4, hos] at h
      · exact ⟨rel, rfl⟩
  · simp [run_llm_investigation, Bool.of_not_eq_true hk] at h

/-- C6: when the AI reviewer yields an object carrying the required
field with a recognized category, the orchestrator sets overall status
to Success and appends a reviewer evidence record whose outcome is
Success exactly when the category is the no-risk token; any other
category keeps overall status Success with a Failure evidence
record. -/
theorem ai_recognized_category (env : Env) (token_id now : String)
    (ad : AssetData) (rows : List RegistryRow) (row : RegistryRow)
    (alerts : List NewsAlert) (fs : List (String × JsonVal)) (c : String)
    (h1 : env.asset = some ad) (h2 : env.registryRead = .ok rows)
    (h3 : rows.find? (fun r => r.c_of_o_id == ad.registry_key) = some row)
    (h4 : env.newsRead = .ok alerts)
    (h5 : run_llm_investigation env = some (.obj fs))
    (h6 : lookupFields fs "potential_risk_type" = some (.str c))
    (h7 : c ∈ ["Title Dispute", "Financial Pledge", "Government Revocation", "No Risk Found"]) :
    (analyze_asset env token_id now).report.status = "Success"
    ∧ (analyze_asset env token_id now).httpError = none
    ∧ ∃ e : Evidence,
        (analyze_asset env token_id now).report.evidence_summary.getLast? = some e
        ∧ e.step = "Legal Document Review (AI)"
        ∧ (e.result = "Success" ↔ c = "No Risk Found")
        ∧ (c ≠ "No Risk Found" → e.result = "Failure") := by
  obtain ⟨rel, hsel⟩ := run_llm_some_selectRelevant env _ ad rows alerts h5 h1 h2 h4
  have howner : ownerOf rows ad.registry_key = row.owner_name := by
    simp [ownerOf, h3]
  rw [howner] at hsel
  have hred : analyze_asset env token_id now
      = aiReviewStep env
          { initialReport token_id now with
            evidence_summary := [registryFoundEvidence ad.registry_key row.status,
              newsEvidence row.owner_name rel] } := by
    simp [analyze_asset, get_asset_data, h1, h2, h3, newsScanStep, h4, hsel]
  have htr := obj_truthy_of_lookup fs "potential_risk_type" (.str c) h6
  have hpc : pyContains "potential_risk_type" (.obj fs) = some true := by
    simp [pyContains, lookupFields_any_key fs "potential_risk_type" (.str c) h6]
  have hai : aiReviewStep env
      { initialReport token_id now with
        evidence_summary := [registryFoundEvidence ad.registry_key row.status,
          newsEvidence row.owner_name rel] }
      = { httpError := none
          report :=
            { initialReport token_id now with
              status := "Success"
              risk_type := .str c
              risk_summary :=
                if !((c : String) == "No Risk Found") then
                  "Comprehensive analysis completed. AI model identified a risk of '" ++ c ++ "'."
                else
                  "Comprehensive analysis of all data sources found no indicators of title dispute, financial encumbrance, or government revocation."
              evidence_summary := [registryFoundEvidence ad.registry_key row.status,
                newsEvidence row.owner_name rel] ++
                [{ step := "Legal Document Review (AI)",
                   result := if !((c : String) == "No Risk Found") then "Failure" else "Success",
                   detail := "AI review of legal documents concluded: '" ++ c ++ "'." }] } } := by
    simp [aiReviewStep, h5, htr, hpc, h6, JsonVal.isStrEq, pyStr]
  rw [hred, hai]
  refine ⟨rfl, rfl, ?_⟩
  refine ⟨_, List.getLast?_concat _, rfl, ?_, ?_⟩
  · by_cases hc : c = "No Risk Found"
    · simp [hc]
    · have : (c == "No Risk Found") = false := by
        simpa using hc
      simp [this, hc]
  · intro hc
    have : (c == "No Risk Found") = false := by
      simpa using hc
    simp [this]

/-- Concrete environment whose AI reviewer answers with the recognized
category "Title Dispute". -/
def envTitleDispute : Env :=
  { apiKeyOk := true
    asset := some { registry_key := "C-OF-O-LAG-001" }
    deedRead := some "deed text"
    registryRead := .ok
      [{ c_of_o_id := "C-OF-O-LAG-001", status := "Under Dispute",
         owner_name := .str "Owner X" }]
    newsRead := .ok []
    chatText := some "\x7b\"potential_risk_type\": \"Title Dispute\"\x7d"
    parse := fun _ => some (.obj [("potential_risk_type", .str "Title Dispute")]) }

/-- C6 witness: the recognized-category property evaluated on a
concrete run whose reviewer answers "Title Dispute". -/
theorem ai_recognized_category_witness :
    (analyze_asset envTitleDispute "NGA-LAG-001" "ts").report.status = "Success"
    ∧ (analyze_asset envTitleDispute "NGA-LAG-001" "ts").httpError = none
    ∧ ∃ e : Evidence,
        (analyze_asset envTitleDispute "NGA-LAG-001" "ts").report.evidence_summary.getLast? = some e
        ∧ e.step = "Legal Document Review (AI)"
        ∧ (e.result = "Success" ↔ "Title Dispute" = "No Risk Found")
        ∧ ("Title Dispute" ≠ "No Risk Found" → e.result = "Failure") :=
  ai_recognized_category envTitleDispute "NGA-LAG-001" "ts"
    { registry_key := "C-OF-O-LAG-001" }
    [{ c_of_o_id := "C-OF-O-LAG-001", status := "Under Dispute", owner_name := .str "Owner X" }]
    { c_of_o_id := "C-OF-O-LAG-001", status := "Under Dispute", owner_name := .str "Owner X" }
    [] [("potential_risk_type", .str "Title Dispute")] "Title Dispute"
    rfl rfl (by decide) rfl rfl rfl (by simp)

/-- Concrete environment whose chat call raises, so the reviewer
returns null, while every earlier source is healthy. -/
def envLlmNone : Env :=
  { apiKeyOk := true
    asset := some { registry_key := "C-OF-O-LAG-001" }
    deedRead := some "deed text"
    registryRead := .ok
      [{ c_of_o_id := "C-OF-O-LAG-001", status := "Verified", owner_name := .str "A" }]
    newsRead := .ok []
    chatText := none
    parse := fun _ => none }

/-- C7 counterexample: on a null reviewer result the orchestrator sets
status Partial Success but leaves the risk category at the default
"Analysis Error"; it does not become the claimed Unknown category. -/
theorem ai_failure_keeps_analysis_error_cex :
    (analyze_asset envLlmNone "T-7" "ts").report.status = "Partial Success"
    ∧ (analyze_asset envLlmNone "T-7" "ts").report.risk_type = .str "Analysis Error"
    ∧ (analyze_asset envLlmNone "T-7" "ts").report.risk_type ≠ .str "Unknown"
    ∧ (analyze_asset envLlmNone "T-7" "ts").report.risk_type ≠ .str "Unknown Risk" := by
  refine ⟨rfl, rfl, ?_, ?_⟩
  · rw [show (analyze_asset envLlmNone "T-7" "ts").report.risk_type
        = .str "Analysis Error" from rfl]
    intro h
    injection h with h'
    exact absurd h' (by decide)
  · rw [show (analyze_asset envLlmNone "T-7" "ts").report.risk_type
        = .str "Analysis Error" from rfl]
    intro h
    injection h with h'
    exact absurd h' (by decide)

/-- C7 amended: whenever the news scan completed (the owner cell was
not a NaN aborting the scan) and the AI reviewer yields a null result,
a falsy one, or one without the required field, the orchestrator
appends a Failure evidence record and sets overall status to Partial
Success; the risk category keeps its default "Analysis Error" value
(the spec's Unknown label appears only in the alternate orchestrator
`perform_asset_analysis`, which uses "Unknown Risk" but appends no
evidence).  A non-null result with an unrecognized category instead
takes the Success path. -/
theorem ai_null_or_missing_field (env : Env) (token_id now : String)
    (ad : AssetData) (rows : List RegistryRow) (row : RegistryRow) (alerts : List NewsAlert)
    (h1 : env.asset = some ad) (h2 : env.registryRead = .ok rows)
    (h3 : rows.find? (fun r => r.c_of_o_id == ad.registry_key) = some row)
    (h4 : env.newsRead = .ok alerts)
    (h5 : run_llm_investigation env = none
          ∨ ∃ v, run_llm_investigation env = some v
              ∧ (v.truthy = false ∨ pyContains "potential_risk_type" v = some false))
    (h6 : selectRelevant row.owner_name alerts ≠ none) :
    (analyze_asset env token_id now).report.status = "Partial Success"
    ∧ (analyze_asset env token_id now).report.risk_type = .str "Analysis Error"
    ∧ (analyze_asset env token_id now).report.risk_summary
        = "Analysis was inconclusive due to an AI model error."
    ∧ (analyze_asset env token_id now).report.evidence_summary.getLast?
        = some { step := "Legal Document Review (AI)", result := "Failure",
                 detail := "AI model returned an unexpected or empty result." }
    ∧ (analyze_asset env token_id now).httpError = none := by
  rcases hos : selectRelevant row.owner_name alerts with _ | rel
  · exact absurd hos h6
  have hred : analyze_asset env token_id now
      = aiReviewStep env
          { initialReport token_id now with
            evidence_summary := [registryFoundEvidence ad.registry_key row.status,
              newsEvidence row.owner_name rel] } := by
    simp [analyze_asset, get_asset_data, h1, h2, h3, newsScanStep, h4, hos]
  rw [hred]
  have hgoal : ∀ r : AnalyzeOutcome,
      r = { httpError := none
            report :=
              { initialReport token_id now with
                status := "Partial Success"
                risk_summary := "Analysis was inconclusive due to an AI model error."
                evidence_summary := [registryFoundEvidence ad.registry_key row.status,
                  newsEvidence row.owner_name rel] ++
                  [{ step := "Legal Document Review (AI)", result := "Failure",
                     detail := "AI model returned an unexpected or empty result." }] } } →
      r.report.status = "Partial Success"
      ∧ r.report.risk_type = .str "Analysis Error"
      ∧ r.report.risk_summary = "Analysis was inconclusive due to an AI model error."
      ∧ r.report.evidence_summary.getLast?
          = some { step := "Legal Document Review (AI)", result := "Failure",
                   detail := "AI model returned an unexpected or empty result." }
      ∧ r.httpError = none := by
    rintro r rfl
    exact ⟨rfl, rfl, rfl, List.getLast?_concat _, rfl⟩
  apply hgoal
  rcases h5 with h5 | ⟨v, h5, hv⟩
  · simp [aiReviewStep, h5]
  · rcases hv with hv | hv
    · simp [aiReviewStep, h5, hv]
    · by_cases htr : v.truthy = true
      · simp [aiReviewStep, h5, htr, hv]
      · simp [aiReviewStep, h5, Bool.of_not_eq_true htr]

/-- C7 witness: the amended statement evaluated on the concrete
environment whose chat call raises. -/
theorem ai_null_or_missing_field_witness :
    (analyze_asset envLlmNone "T-7b" "ts").report.status = "Partial Success"
    ∧ (analyze_asset envLlmNone "T-7b" "ts").report.risk_type = .str "Analysis Error"
    ∧ (analyze_asset envLlmNone "T-7b" "ts").report.risk_summary
        = "Analysis was inconclusive due to an AI model error."
    ∧ (analyze_asset envLlmNone "T-7b" "ts").report.evidence_summary.getLast?
        = some { step := "Legal Document Review (AI)", result := "Failure",
                 detail := "AI model returned an unexpected or empty result." }
    ∧ (analyze_asset envLlmNone "T-7b" "ts").httpError = none :=
  ai_null_or_missing_field envLlmNone "T-7b" "ts"
    { registry_key := "C-OF-O-LAG-001" }
    [{ c_of_o_id := "C-OF-O-LAG-001", status := "Verified", owner_name := .str "A" }]
    { c_of_o_id := "C-OF-O-LAG-001", status := "Verified", owner_name := .str "A" }
    [] rfl rfl (by decide) rfl (Or.inl rfl) (by decide)

theorem aiReviewStep_length_obj (env : Env) (r : FinalReport)
    (hml : ∀ v, run_llm_investigation env = some v → ∃ fs, v = JsonVal.obj fs) :
    (aiReviewStep env r).report.evidence_summary.length
      = r.evidence_summary.length + 1 := by
  rcases hv : run_llm_investigation env with _ | v
  · simp [aiReviewStep, hv]
  · obtain ⟨fs, rfl⟩ := hml v hv
    by_cases htr : (JsonVal.obj fs).truthy = true
    · cases hb : (fs.any fun p => p.1 == "potential_risk_type")
      · simp [aiReviewStep, hv, htr, pyContains, hb]
      · simp [aiReviewStep, hv, htr, pyContains, hb]
    · simp [aiReviewStep, hv, Bool.of_not_eq_true htr]

/-- Concrete environment with an asset id absent from the metadata
store, used to count attempted collectors. -/
def envNoCollectors : Env :=
  { apiKeyOk := true
    asset := none
    deedRead := some "deed text"
    registryRead := .ok []
    newsRead := .ok []
    chatText := none
    parse := fun _ => none }

/-- C8 counterexample: on the resolution-failure path the trail holds
the resolver's own Failure record, so its length is 1 while zero
collector steps were attempted, refuting the claimed equality. -/
theorem evidence_trail_length_cex :
    (analyze_asset envNoCollectors "T-8" "ts").report.evidence_summary.length = 1
    ∧ collectorsAttempted envNoCollectors = 0 :=
  ⟨rfl, rfl⟩

/-- C8 amended: once the asset resolves, the evidence trail's length
equals the number of collector steps actually attempted — each
attempted collector appends exactly one record whether it succeeds or
fails, and collectors after a fatal failure (an unreadable source, or
the NaN-owner TypeError inside the news scan) append none — provided
the AI result, when non-null, is a JSON object (a truthy non-object
result crashes the classification before the record is appended).
When resolution fails, the trail instead holds exactly the resolver's
one ingestion-failure record. -/
theorem evidence_trail_length (env : Env) (token_id now : String)
    (ha : env.asset.isSome = true)
    (hml : ∀ v, run_llm_investigation env = some v → ∃ fs, v = JsonVal.obj fs) :
    (analyze_asset env token_id now).report.evidence_summary.length
      = collectorsAttempted env := by
  obtain ⟨ad, had⟩ := Option.isSome_iff_exists.mp ha
  rcases hrr : env.registryRead with e | rows
  · simp [analyze_asset, get_asset_data, had, hrr, collectorsAttempted]
  · rcases hf : rows.find? (fun r => r.c_of_o_id == ad.registry_key) with _ | row
    · simp [analyze_asset, get_asset_data, had, hrr, hf, collectorsAttempted]
    · rcases hnn : env.newsRead with e | alerts
      · simp [analyze_asset, get_asset_data, had, hrr, hf, collectorsAttempted,
          newsScanStep, hnn]
      · rcases hos : selectRelevant row.owner_name alerts with _ | rel
        · simp [analyze_asset, get_asset_data, had, hrr, hf, collectorsAttempted,
            newsScanStep, hnn, hos]
        · have hred : analyze_asset env token_id now
              = aiReviewStep env
                  { initialReport token_id now with
                    evidence_summary := [registryFoundEvidence ad.registry_key row.status,
                      newsEvidence row.owner_name rel] } := by
            simp [analyze_asset, get_asset_data, had, hrr, hf, newsScanStep, hnn, hos]
          rw [hred, aiReviewStep_length_obj env _ hml]
          simp [collectorsAttempted, had, hrr, hf, hnn, hos]

/-- Concrete environment realizing the spec's golden scenario: registry
status "Under Dispute", an owner matching no alert, and an AI verdict
of "Title Dispute". -/
def envGoldenScenario : Env :=
  { apiKeyOk := true
    asset := some { registry_key := "C-OF-O-LAG-001" }
    deedRead := some "deed text"
    registryRead := .ok
      [{ c_of_o_id := "C-OF-O-LAG-001", status := "Under Dispute",
         owner_name := .str "RealVest Nigeria PLC" }]
    newsRead := .ok
      [{ headline := some "Unrelated Story", summary := some "Nothing here." }]
    chatText := some "\x7b\"potential_risk_type\": \"Title Dispute\"\x7d"
    parse := fun _ => some (.obj [("potential_risk_type", .str "Title Dispute")]) }

/-- C8 witness: the amended statement evaluated on the golden scenario,
where all three collectors run and the trail holds three records. -/
theorem evidence_trail_length_witness :
    (analyze_asset envGoldenScenario "NGA-LAG-001" "ts").report.evidence_summary.length
        = collectorsAttempted envGoldenScenario
      ∧ collectorsAttempted envGoldenScenario = 3 :=
  ⟨evidence_trail_length envGoldenScenario "NGA-LAG-001" "ts" rfl
    (fun v hv => ⟨[("potential_risk_type", .str "Title Dispute")], (Option.some.inj hv).symm⟩),
   rfl⟩

/-- C9: the attestation is a deterministic pure function of the
report's content — equal reports give identical tokens, and any change
to any report field changes the token (the fingerprint encoding is
injective); the model makes no external calls and uses no randomness by
construction. -/
theorem attestation_pure_injective (r1 r2 : SpecReport) :
    generate_mock_zk_proof r1 = generate_mock_zk_proof r2 ↔ r1 = r2 := by
  constructor
  · intro h
    have hf := congrArg AttestationToken.report_fingerprint h
    simp only [generate_mock_zk_proof] at hf
    have hdata : encodeReport r1 = encodeReport r2 := by
      have := congrArg String.data hf
      simpa using this
    exact encodeReport_inj hdata
  · intro h
    rw [h]

/-- Evidence record shared by the two reports of the attestation
witness. -/
def witnessEvidenceRecord : SpecEvidence :=
  { step_name := "Land Registry Verification"
    outcome := .failure
    detail := "Under Dispute" }

/-- Report of the attestation witness with overall status Success. -/
def witnessReportSuccess : SpecReport :=
  { asset_id := "NGA-LAG-001"
    overall_status := .success
    risk_category := .titleDispute
    narrative := "risk found"
    evidence_trail := [witnessEvidenceRecord]
    generated_at := "ts" }

/-- Report of the attestation witness, identical except for overall
status Failed. -/
def witnessReportFailed : SpecReport :=
  { asset_id := "NGA-LAG-001"
    overall_status := .failed
    risk_category := .titleDispute
    narrative := "risk found"
    evidence_trail := [witnessEvidenceRecord]
    generated_at := "ts" }

/-- C9 witness: two reports differing only in overall status receive
different tokens. -/
theorem attestation_pure_injective_witness :
    generate_mock_zk_proof witnessReportSuccess
      ≠ generate_mock_zk_proof witnessReportFailed := by
  intro h
  have heq := (attestation_pure_injective witnessReportSuccess witnessReportFailed).mp h
  exact absurd heq (by decide)

/-- Concrete environment in which the AI response itself is a JSON
object carrying an "error" key and the magic "Asset not found."
message. -/
def envErrorPayload : Env :=
  { apiKeyOk := true
    asset := some { registry_key := "C-OF-O-LAG-001" }
    deedRead := some "deed text"
    registryRead := .ok
      [{ c_of_o_id := "C-OF-O-LAG-001", status := "Verified", owner_name := .str "A" }]
    newsRead := .ok []
    chatText := some "\x7b\"error\": true, \"message\": \"Asset not found.\"\x7d"
    parse := fun _ => some (.obj [("error", .bool true), ("message", .str "Asset not found.")]) }

/-- C10 counterexample: the reviewer returns the parsed response
unchanged, so an AI response containing an "error" key is returned as a
dictionary containing "error", and with the matching message
`perform_asset_analysis` does return status "Not Found" — the branch is
reachable. -/
theorem not_found_branch_reachable_cex :
    run_llm_investigation envErrorPayload
        = some (.obj [("error", .bool true), ("message", .str "Asset not found.")])
      ∧ pyContains "error"
          (.obj [("error", .bool true), ("message", .str "Asset not found.")]) = some true
      ∧ (perform_asset_analysis envErrorPayload "T-10").status = "Not Found" := by
  refine ⟨rfl, by simp [pyContains], rfl⟩

theorem status_of_non_not_found {s : String}
    (h : s = "Partial Success" ∨ s = "Failed" ∨ s = "Success") : s ≠ "Not Found" := by
  rcases h with rfl | rfl | rfl <;> decide

/-- C10 amended: `run_llm_investigation` returns either null or the
value parsed from the AI response unchanged, so a dictionary containing
the key "error" can arise only when the AI response itself contains
that key; whenever the reviewer's result never carries an "error" key,
the "Not Found" branch of `perform_asset_analysis` is unreachable and
the returned status is never "Not Found". -/
theorem perform_no_not_found (env : Env) (token_id : String)
    (h : ∀ v, run_llm_investigation env = some v → pyContains "error" v ≠ some true) :
    (perform_asset_analysis env token_id).status ≠ "Not Found" := by
  apply status_of_non_not_found
  rcases hv : run_llm_investigation env with _ | v
  · left
    simp [perform_asset_analysis, hv]
  · by_cases htr : v.truthy = true
    · rcases hpc : pyContains "error" v with _ | b
      · right
        left
        simp [perform_asset_analysis, hv, htr, hpc]
      · cases b
        · rcases hpc2 : pyContains "potential_risk_type" v with _ | b2
          · right
            left
            simp [perform_asset_analysis, hv, htr, hpc, hpc2]
          · cases b2
            · left
              simp [perform_asset_analysis, hv, htr, hpc, hpc2]
            · right
              right
              simp [perform_asset_analysis, hv, htr, hpc, hpc2]
        · exact absurd hpc (h v hv)
    · left
      simp [perform_asset_analysis, hv, Bool.of_not_eq_true htr]

/-- C10 witness: the amended statement evaluated on the golden-scenario
environment, whose reviewer result carries no "error" key. -/
theorem perform_no_not_found_witness :
    (perform_asset_analysis envGoldenScenario "NGA-LAG-001").status ≠ "Not Found" :=
  perform_no_not_found envGoldenScenario "NGA-LAG-001" (fun v hv => by
    have hveq := Option.some.inj hv
    rw [← hveq]
    decide)
